import Mathlib

/-!
Shallow embedding of `src/app.py` (Security RAG API).

The repository is a FastAPI service with three endpoints; the two the claims
concern are `ask` (query orchestration: retrieve context from a chroma
collection, assemble a prompt, call ollama, shape the response) and
`load_mitre` (ingestion: fetch the MITRE ATT&CK dataset, parse it with the
mitreattack library, bulk-add technique documents to the collection).

External collaborators (the chroma vector store, the ollama generation engine,
the HTTP fetch, and the mitreattack parser) are not part of the repository
source; they are modelled from the specification as explicit parameters and
oracles.  The handlers themselves are translated line by line from
`src/app.py`.  External calls performed by a handler are recorded in an
explicit event trace so that frame conditions (what was called, in which
order, and what was never called) are provable.
-/

/-- A technique record as surfaced by the mitreattack library to the loop in
`load_mitre`: an identifier, a name, a free-text description, and the
revoked/deprecated markers the library filters on. -/
structure Technique where
  id : String
  name : String
  description : String
  revoked : Bool
  deprecated : Bool
deriving DecidableEq, Repr

/-- Modelled from the spec: the mitreattack library call
`data.get_techniques(remove_revoked_deprecated=True)` parses the dataset into
technique records, "filtering out any marked revoked or deprecated". -/
def get_techniques (records : List Technique) (remove_revoked_deprecated : Bool) :
    List Technique :=
  if remove_revoked_deprecated then
    records.filter (fun t => !t.revoked && !t.deprecated)
  else
    records

/-- The chroma collection, modelled from the spec as an insertion-ordered list
of (identifier, document text) pairs. -/
structure Collection where
  entries : List (String × String)
deriving DecidableEq, Repr

/-- Validation failures of the knowledge store `add` call. -/
inductive StoreError where
  | lengthMismatch
  | duplicateId (id : String)
deriving DecidableEq, Repr

/-- Modelled from the spec: the Knowledge Store Client contract
`add(texts, ids)` "fails with ValidationError if lengths differ or any id
already exists in the collection"; otherwise the documents are appended. -/
def Collection.add (c : Collection) (documents ids : List String) :
    Except StoreError Collection :=
  if documents.length ≠ ids.length then
    .error .lengthMismatch
  else
    match ids.find? (fun i => (c.entries.map Prod.fst).contains i) with
    | some i => .error (.duplicateId i)
    | none => .ok ⟨c.entries ++ ids.zip documents⟩

/-- The external-call oracle for the store query in `ask`: `queryFail` is the
store raising (dependency failure), and `rank` is the external similarity
metric ordering the collection texts for a given query text. -/
structure StoreOracle where
  queryFail : Option String
  rank : String → List String → List String

/-- Modelled from the spec: the Knowledge Store Client contract
`query(text, k)` returns a ranked sequence of up to k documents (fewer when
the collection holds fewer), with the ranking owned by the external store;
on store failure the call raises.  The result mirrors the chroma shape used
by the handler: a per-query-text list of document lists. -/
def Collection.queryDocs (c : Collection) (so : StoreOracle) (text : String) (k : Nat) :
    Except String (List (List String)) :=
  match so.queryFail with
  | some e => .error e
  | none => .ok [(so.rank text (c.entries.map Prod.snd)).take k]

/-- The external-call oracle for the generation engine: given a model name and
a prompt, `ollama.generate` either returns the response text or raises. -/
structure GenOracle where
  generate : String → String → Except String String

/-- One observable external action of a handler. -/
inductive Event where
  | queryCall (text : String) (nResults : Nat)
  | generateCall (model : String) (prompt : String)
  | addCall (documents ids : List String)
  | logError (message : String)
deriving DecidableEq, Repr

/-- Whether an event is a knowledge-store write. -/
def Event.isAdd : Event → Bool
  | .addCall _ _ => true
  | _ => false

/-- Whether an event is a knowledge-store retrieval. -/
def Event.isQuery : Event → Bool
  | .queryCall _ _ => true
  | _ => false

/-- Whether an event is a generation-engine call. -/
def Event.isGenerate : Event → Bool
  | .generateCall _ _ => true
  | _ => false

/-- Whether an event is a log emission. -/
def Event.isLog : Event → Bool
  | .logError _ => true
  | _ => false

/-- The prompt carried by a generation call, if the event is one. -/
def Event.promptOf : Event → Option String
  | .generateCall _ p => some p
  | _ => none

/-- For an add call, whether its two lists have equal length (vacuously true
for the other events). -/
def Event.addLengthsMatch : Event → Bool
  | .addCall documents ids => documents.length == ids.length
  | _ => true

/-- Line 40 of `src/app.py`:
`context = "\n\n".join(results["documents"][0] if results["documents"] else [])`. -/
def joinContext (documents : List (List String)) : String :=
  String.intercalate "\n\n" (match documents with
    | [] => []
    | d :: _ => d)

/-- Lines 43-51 of `src/app.py`: the f-string prompt template, byte for byte,
with the `context` and `q` holes as arguments. -/
def askPrompt (context q : String) : String :=
  "You are a cybersecurity expert assistant. Use the following context to answer the question.\n\n                    Context:" ++
    context ++
    "\n\n                    Question: " ++
    q ++
    "\n\n                    Provide a clear, actionable answer. If the context mentions MITRE ATT&CK techniques, include the technique IDs. If discussing detection, mention specific tools or data sources.\n\n        Answer:"

/-- Prompt assembly as performed by `ask`: the context is joined from the
retrieved document lists and substituted into the fixed template together
with the question. -/
def assemblePrompt (q : String) (documents : List (List String)) : String :=
  askPrompt (joinContext documents) q

/-- The HTTP outcome of the `ask` handler: a 200 body with the `question` and
`answer` fields, or an HTTPException with a status code and a `detail`
string. -/
inductive AskResponse where
  | ok (question answer : String)
  | httpError (status : Nat) (detail : String)
deriving DecidableEq, Repr

/-- Lines 27-67 of `src/app.py`, the `/ask` handler: query the collection with
`n_results=3`, join the first result row into a context string, build the
prompt, call the generation engine, and return the question/answer body;
any exception is logged as a query error and re-raised as HTTP 500 with the
exception text as detail.  Returns the response, the collection after the
request, and the trace of external actions in order. -/
def ask (so : StoreOracle) (go : GenOracle) (modelName : String)
    (c : Collection) (q : String) :
    AskResponse × Collection × List Event :=
  match c.queryDocs so q 3 with
  | .error e =>
      (.httpError 500 e, c, [.queryCall q 3, .logError ("Query error: " ++ e)])
  | .ok documents =>
      let context := joinContext documents
      let prompt := askPrompt context q
      match go.generate modelName prompt with
      | .error e =>
          (.httpError 500 e, c,
            [.queryCall q 3, .generateCall modelName prompt,
             .logError ("Query error: " ++ e)])
      | .ok answer =>
          (.ok q answer, c, [.queryCall q 3, .generateCall modelName prompt])

/-- The bytes and status code of the dataset fetch: `r = requests.get(url)`
yields a response object with `status_code` and `content`; the handler never
inspects the status code. -/
structure FetchResponse where
  statusCode : Nat
  content : String
deriving DecidableEq, Repr

/-- Failure modes of the ingestion endpoint: a raised network error from the
fetch, a raised parse error from the mitreattack loader, or a raised store
validation error from the bulk add. -/
inductive LoadError where
  | network (msg : String)
  | parse (msg : String)
  | store (e : StoreError)
deriving DecidableEq, Repr

/-- Line 90 of `src/app.py`: the document text built for one technique,
`f"\x7btech.name\x7d (\x7btech.id\x7d)\n\x7btech.description\x7d"`. -/
def techniqueText (t : Technique) : String :=
  t.name ++ " (" ++ t.id ++ ")\n" ++ t.description

/-- Lines 71-97 of `src/app.py`, the `/load-mitre` handler: fetch the dataset
(a raised network error propagates; the status code is never checked and no
raise_for_status is called), write the body and parse it with the
mitreattack loader (a raised parse error propagates), filter out revoked or
deprecated techniques, build the document texts and ids, bulk-add them to
the collection in one call, and return the count of documents.  The file
write to ./tmp/attack.json followed by reading it back is modelled as
passing the fetched bytes directly to the parser. -/
def load_mitre (fetchOutcome : Except String FetchResponse)
    (parseData : String → Except String (List Technique))
    (c : Collection) :
    Except LoadError Nat × Collection × List Event :=
  match fetchOutcome with
  | .error e => (.error (.network e), c, [])
  | .ok r =>
      match parseData r.content with
      | .error e => (.error (.parse e), c, [])
      | .ok records =>
          let techs := get_techniques records true
          let docs := techs.map techniqueText
          let ids := techs.map Technique.id
          match c.add docs ids with
          | .error e => (.error (.store e), c, [.addCall docs ids])
          | .ok c2 => (.ok docs.length, c2, [.addCall docs ids])

/-! ### Concrete fixtures for witnesses and counterexamples -/

/-- A concrete active technique record. -/
def phishingTech : Technique :=
  ⟨"T1566", "Phishing", "Adversaries may send phishing messages.", false, false⟩

/-- A concrete revoked technique record. -/
def revokedTech : Technique :=
  ⟨"T1000", "Old Technique", "No longer tracked.", true, false⟩

/-- A parser oracle returning one active and one revoked record. -/
def parseTwo : String → Except String (List Technique) :=
  fun _ => .ok [phishingTech, revokedTech]

/-- A parser oracle returning a single active record. -/
def parseOne : String → Except String (List Technique) :=
  fun _ => .ok [phishingTech]

/-- A store oracle whose query call raises. -/
def soFail : StoreOracle := ⟨some "connection refused", fun _ texts => texts⟩

/-- A store oracle whose query succeeds with the identity ranking. -/
def soOk : StoreOracle := ⟨none, fun _ texts => texts⟩

/-- A generation oracle that succeeds with a fixed answer. -/
def goOk : GenOracle := ⟨fun _ _ => .ok "the answer"⟩

/-- A generation oracle that raises. -/
def goFail : GenOracle := ⟨fun _ _ => .error "ollama unreachable"⟩

/-! ### Helper lemmas -/

/-- Zipping two maps over the same list pairs the images pointwise. -/
theorem zip_map_pair {α β γ : Type} (f : α → β) (g : α → γ) :
    ∀ l : List α, (l.map f).zip (l.map g) = l.map fun a => (f a, g a)
  | [] => rfl
  | a :: l => by simp [zip_map_pair f g l]

/-! ### Claims about the ingestion endpoint -/

/-- C1: for every fetched dataset, `load_mitre` excludes every technique
record marked revoked or deprecated, maps each surviving record to exactly one
document whose text is the name, the parenthesized id and a newline followed
by the description, with the record identifier reused verbatim as document id,
bulk-submits all resulting (texts, ids) to the knowledge store in one call,
and returns a loaded count equal to the number of surviving records. -/
theorem C1_load_mitre_ingestion
    (r : FetchResponse) (parseData : String → Except String (List Technique))
    (records : List Technique) (c c2 : Collection)
    (hp : parseData r.content = .ok records)
    (ha : c.add ((get_techniques records true).map techniqueText)
        ((get_techniques records true).map Technique.id) = .ok c2) :
    load_mitre (.ok r) parseData c =
      (.ok (get_techniques records true).length, c2,
        [.addCall ((get_techniques records true).map techniqueText)
          ((get_techniques records true).map Technique.id)]) ∧
    (∀ t, t ∈ get_techniques records true ↔
      (t ∈ records ∧ t.revoked = false ∧ t.deprecated = false)) ∧
    (∀ t, techniqueText t = t.name ++ " (" ++ t.id ++ ")\n" ++ t.description) := by
  refine ⟨?_, ?_, fun t => rfl⟩
  · simp only [load_mitre, hp, ha, List.length_map]
  · intro t
    simp [get_techniques, List.mem_filter, Bool.and_eq_true, Bool.not_eq_true']

/-- Witness for C1 at a concrete dataset with one active and one revoked
record: parsing succeeds, and the run stores exactly the active record and
reports one loaded document. -/
theorem C1_load_mitre_ingestion_witness :
    parseTwo "attack-bytes" = .ok [phishingTech, revokedTech] ∧
    load_mitre (.ok ⟨200, "attack-bytes"⟩) parseTwo ⟨[]⟩ =
      (.ok 1,
       ⟨[("T1566", "Phishing (T1566)\nAdversaries may send phishing messages.")]⟩,
       [.addCall ["Phishing (T1566)\nAdversaries may send phishing messages."]
         ["T1566"]]) := by
  refine ⟨rfl, ?_⟩
  exact (C1_load_mitre_ingestion ⟨200, "attack-bytes"⟩ parseTwo
    [phishingTech, revokedTech] ⟨[]⟩
    ⟨[("T1566", "Phishing (T1566)\nAdversaries may send phishing messages.")]⟩
    rfl rfl).1

/-- C4 counterexample: a fetch that comes back with HTTP status 404 (a
non-success status) does not fail the ingestion: `requests.get` is never
followed by a status check, so the handler proceeds to parse the fetched
bytes and stores the parsed records, returning a success count. -/
theorem C4_http_failure_counterexample :
    (load_mitre (.ok ⟨404, "Not Found"⟩) parseOne ⟨[]⟩).1 = .ok 1 ∧
    (load_mitre (.ok ⟨404, "Not Found"⟩) parseOne ⟨[]⟩).2.2 =
      [.addCall ["Phishing (T1566)\nAdversaries may send phishing messages."]
        ["T1566"]] := by
  exact ⟨rfl, rfl⟩

/-- C4 (amended): a network failure of the fetch (the fetch call raising)
fails the ingestion with the error surfaced to the caller, with nothing
parsed or stored; an HTTP-level non-success status, however, does not fail
the fetch — the handler behaves identically whatever the status code, parsing
and storing the fetched bytes. -/
theorem C4_amended_fetch_behavior
    (parseData : String → Except String (List Technique)) (c : Collection) :
    (∀ e, load_mitre (.error e) parseData c = (.error (.network e), c, [])) ∧
    (∀ s1 s2 body, load_mitre (.ok ⟨s1, body⟩) parseData c =
      load_mitre (.ok ⟨s2, body⟩) parseData c) :=
  ⟨fun _ => rfl, fun _ _ _ => rfl⟩

/-- C5 counterexample: the stored document text uses a single newline between
the heading and the description, not a blank line (two newlines): on a
dataset with the one active record, the stored text differs from the
two-newline form the claim states. -/
theorem C5_two_newline_counterexample :
    (load_mitre (.ok ⟨200, "attack-bytes"⟩) parseOne ⟨[]⟩).2.1.entries =
      [("T1566", "Phishing (T1566)\nAdversaries may send phishing messages.")] ∧
    techniqueText phishingTech ≠
      "Phishing (T1566)\n\nAdversaries may send phishing messages." := by
  exact ⟨rfl, by decide⟩

/-- C5 (amended): for every surviving technique record, the stored document
pair is (id, text) with the id the external identifier verbatim and the text
the name, the parenthesized id, a single newline, then the description. -/
theorem C5_single_newline_text
    (r : FetchResponse) (parseData : String → Except String (List Technique))
    (records : List Technique) (c c2 : Collection)
    (hp : parseData r.content = .ok records)
    (ha : c.add ((get_techniques records true).map techniqueText)
        ((get_techniques records true).map Technique.id) = .ok c2) :
    (load_mitre (.ok r) parseData c).2.1.entries =
      c.entries ++ (get_techniques records true).map
        (fun t => (t.id, t.name ++ " (" ++ t.id ++ ")\n" ++ t.description)) := by
  have hunfold : (load_mitre (.ok r) parseData c).2.1 = c2 := by
    simp only [load_mitre, hp, ha]
  rw [hunfold]
  have hc2 : c2 = ⟨c.entries ++
      ((get_techniques records true).map Technique.id).zip
        ((get_techniques records true).map techniqueText)⟩ := by
    unfold Collection.add at ha
    rw [if_neg (by simp)] at ha
    cases hfind : List.find?
        (fun i => (c.entries.map Prod.fst).contains i)
        ((get_techniques records true).map Technique.id) with
    | some i => rw [hfind] at ha; exact absurd ha (by simp)
    | none => rw [hfind] at ha; exact (Except.ok.inj ha).symm
  rw [hc2, zip_map_pair]
  simp [techniqueText]

/-- Witness for C5 (amended) on the concrete one-record dataset. -/
theorem C5_single_newline_text_witness :
    (load_mitre (.ok ⟨200, "attack-bytes"⟩) parseOne ⟨[]⟩).2.1.entries =
      [] ++ (get_techniques [phishingTech] true).map
        (fun t => (t.id, t.name ++ " (" ++ t.id ++ ")\n" ++ t.description)) :=
  C5_single_newline_text ⟨200, "attack-bytes"⟩ parseOne [phishingTech] ⟨[]⟩
    ⟨[("T1566", "Phishing (T1566)\nAdversaries may send phishing messages.")]⟩
    rfl rfl

/-- C10: in `load_mitre` the documents list and the ids list passed to the
store add call always have equal length, so the store length-mismatch
rejection is unreachable from this ingestion path. -/
theorem C10_no_length_mismatch
    (fetchOutcome : Except String FetchResponse)
    (parseData : String → Except String (List Technique)) (c : Collection) :
    ((load_mitre fetchOutcome parseData c).2.2.all Event.addLengthsMatch) = true ∧
    (load_mitre fetchOutcome parseData c).1 ≠ .error (.store .lengthMismatch) := by
  cases fetchOutcome with
  | error e => simp [load_mitre]
  | ok r =>
    cases hp : parseData r.content with
    | error e => simp [load_mitre, hp]
    | ok records =>
      have hlen : ((get_techniques records true).map techniqueText).length =
          ((get_techniques records true).map Technique.id).length := by simp
      cases ha : c.add ((get_techniques records true).map techniqueText)
          ((get_techniques records true).map Technique.id) with
      | error e =>
        have he : e ≠ .lengthMismatch := by
          unfold Collection.add at ha
          rw [if_neg (by simp)] at ha
          cases hfind : List.find?
              (fun i => (c.entries.map Prod.fst).contains i)
              ((get_techniques records true).map Technique.id) with
          | some i =>
            rw [hfind] at ha
            intro hcontra
            rw [hcontra] at ha
            exact absurd (Except.error.inj ha) (by simp)
          | none => rw [hfind] at ha; exact absurd ha (by simp)
        simp [load_mitre, hp, ha, Event.addLengthsMatch, hlen, he]
      | ok c2 =>
        simp [load_mitre, hp, ha, Event.addLengthsMatch, hlen]

/-- Witness for C10 at a concrete run. -/
theorem C10_no_length_mismatch_witness :
    ((load_mitre (.ok ⟨200, "attack-bytes"⟩) parseTwo ⟨[]⟩).2.2.all
      Event.addLengthsMatch) = true ∧
    (load_mitre (.ok ⟨200, "attack-bytes"⟩) parseTwo ⟨[]⟩).1 ≠
      .error (.store .lengthMismatch) :=
  C10_no_length_mismatch (.ok ⟨200, "attack-bytes"⟩) parseTwo ⟨[]⟩

/-! ### Claims about the query endpoint -/

/-- C2: for every question and every outcome of the external calls (including
generation failure), the `ask` handler never writes to the knowledge store:
the collection after the request equals the collection before, and the event
trace contains no add call. -/
theorem C2_ask_never_writes (so : StoreOracle) (go : GenOracle)
    (m : String) (c : Collection) (q : String) :
    (ask so go m c q).2.1 = c ∧
    ((ask so go m c q).2.2.all fun e => !e.isAdd) = true := by
  cases h : c.queryDocs so q 3 with
  | error e => simp [ask, h, Event.isAdd]
  | ok documents =>
    cases hg : go.generate m (askPrompt (joinContext documents) q) with
    | error e => simp [ask, h, hg, Event.isAdd]
    | ok a => simp [ask, h, hg, Event.isAdd]

/-- C3: for every question, an error raised by the retrieval call or by the
generation call makes `ask` respond HTTP 500 with the error text as the
detail, and no call is retried: the trace holds exactly one retrieval call
and at most one generation call. -/
theorem C3_ask_error_500_no_retry (so : StoreOracle) (go : GenOracle)
    (m : String) (c : Collection) (q : String) :
    (∀ e, so.queryFail = some e → (ask so go m c q).1 = .httpError 500 e) ∧
    (∀ documents e, c.queryDocs so q 3 = .ok documents →
      go.generate m (assemblePrompt q documents) = .error e →
      (ask so go m c q).1 = .httpError 500 e) ∧
    ((ask so go m c q).2.2.countP Event.isQuery) = 1 ∧
    ((ask so go m c q).2.2.countP Event.isGenerate) ≤ 1 := by
  refine ⟨?_, ?_, ?_, ?_⟩
  · intro e he
    simp [ask, Collection.queryDocs, he]
  · intro documents e hq hg
    simp [ask, hq, assemblePrompt] at hg ⊢
    simp [hg]
  · cases h : c.queryDocs so q 3 with
    | error e => simp [ask, h, Event.isQuery, Event.isGenerate, List.countP_cons]
    | ok documents =>
      cases hg : go.generate m (askPrompt (joinContext documents) q) with
      | error e => simp [ask, h, hg, Event.isQuery, List.countP_cons]
      | ok a => simp [ask, h, hg, Event.isQuery, List.countP_cons]
  · cases h : c.queryDocs so q 3 with
    | error e => simp [ask, h, Event.isGenerate, List.countP_cons]
    | ok documents =>
      cases hg : go.generate m (askPrompt (joinContext documents) q) with
      | error e => simp [ask, h, hg, Event.isGenerate, List.countP_cons]
      | ok a => simp [ask, h, hg, Event.isGenerate, List.countP_cons]

/-- Witness for C3 at a store whose query raises "connection refused". -/
theorem C3_ask_error_500_no_retry_witness :
    soFail.queryFail = some "connection refused" ∧
    (ask soFail goOk "tinyllama" ⟨[]⟩ "What is phishing?").1 =
      .httpError 500 "connection refused" ∧
    ((ask soFail goOk "tinyllama" ⟨[]⟩ "What is phishing?").2.2.countP
      Event.isQuery) = 1 ∧
    ((ask soFail goOk "tinyllama" ⟨[]⟩ "What is phishing?").2.2.countP
      Event.isGenerate) ≤ 1 := by
  have h := C3_ask_error_500_no_retry soFail goOk "tinyllama" ⟨[]⟩
    "What is phishing?"
  exact ⟨rfl, h.1 "connection refused" rfl, h.2.2.1, h.2.2.2⟩

/-- C6: prompt assembly is a pure, deterministic function of the question and
the retrieved context: assembling twice from identical inputs yields
identical strings, and the prompt the handler hands to the generation engine
is exactly that function of the question and the retrieved documents, with no
other dependence. -/
theorem C6_prompt_assembly_pure :
    (∀ q documents, assemblePrompt q documents = assemblePrompt q documents) ∧
    (∀ so go m c q, so.queryFail = none →
      ((ask so go m c q).2.2.filterMap Event.promptOf) =
        [assemblePrompt q [(so.rank q (c.entries.map Prod.snd)).take 3]]) := by
  refine ⟨fun q documents => rfl, ?_⟩
  intro so go m c q h
  cases hg : go.generate m
      (askPrompt (joinContext [(so.rank q (c.entries.map Prod.snd)).take 3]) q) with
  | error e =>
    simp [ask, Collection.queryDocs, h, hg, assemblePrompt, Event.promptOf]
  | ok a =>
    simp [ask, Collection.queryDocs, h, hg, assemblePrompt, Event.promptOf]

/-- Witness for C6 at a concrete store and question. -/
theorem C6_prompt_assembly_pure_witness :
    assemblePrompt "q" [["ctx"]] = assemblePrompt "q" [["ctx"]] ∧
    ((ask soOk goOk "tinyllama" ⟨[("T1566", "doc")]⟩ "q").2.2.filterMap
      Event.promptOf) =
      [assemblePrompt "q"
        [(soOk.rank "q" ((⟨[("T1566", "doc")]⟩ : Collection).entries.map
          Prod.snd)).take 3]] :=
  ⟨C6_prompt_assembly_pure.1 "q" [["ctx"]],
   C6_prompt_assembly_pure.2 soOk goOk "tinyllama" ⟨[("T1566", "doc")]⟩ "q" rfl⟩

/-- C7: for every question, when retrieval and generation both succeed, `ask`
returns the 200 body with the question echoed verbatim and the answer the
text returned by the generation engine. -/
theorem C7_ask_success (so : StoreOracle) (go : GenOracle) (m : String)
    (c : Collection) (q a : String)
    (hq : so.queryFail = none)
    (hg : go.generate m
      (assemblePrompt q [(so.rank q (c.entries.map Prod.snd)).take 3]) = .ok a) :
    (ask so go m c q).1 = .ok q a := by
  simp [ask, Collection.queryDocs, hq, assemblePrompt] at hg ⊢
  simp [hg]

/-- Witness for C7 at a concrete store, question and generation oracle. -/
theorem C7_ask_success_witness :
    soOk.queryFail = none ∧
    goOk.generate "tinyllama"
      (assemblePrompt "What is phishing?"
        [(soOk.rank "What is phishing?"
          ((⟨[("T1566", "doc")]⟩ : Collection).entries.map Prod.snd)).take 3]) =
      .ok "the answer" ∧
    (ask soOk goOk "tinyllama" ⟨[("T1566", "doc")]⟩ "What is phishing?").1 =
      .ok "What is phishing?" "the answer" :=
  ⟨rfl, rfl,
   C7_ask_success soOk goOk "tinyllama" ⟨[("T1566", "doc")]⟩
     "What is phishing?" "the answer" rfl rfl⟩

/-- C8: for every question, the prompt handed to the generation engine
incorporates at most 3 retrieved context documents joined with a blank-line
separator, together with the question verbatim, inside the fixed template
that instructs the model to cite technique IDs and detection tooling. -/
theorem C8_prompt_shape (so : StoreOracle) (go : GenOracle) (m : String)
    (c : Collection) (q : String) (hq : so.queryFail = none) :
    ∃ docs : List String,
      docs.length ≤ 3 ∧
      ((ask so go m c q).2.2.filterMap Event.promptOf) =
        ["You are a cybersecurity expert assistant. Use the following context to answer the question.\n\n                    Context:" ++
          String.intercalate "\n\n" docs ++
          "\n\n                    Question: " ++ q ++
          "\n\n                    Provide a clear, actionable answer. If the context mentions MITRE ATT&CK techniques, include the technique IDs. If discussing detection, mention specific tools or data sources.\n\n        Answer:"] := by
  refine ⟨(so.rank q (c.entries.map Prod.snd)).take 3, ?_, ?_⟩
  · rw [List.length_take]
    exact min_le_left _ _
  · have h := C6_prompt_assembly_pure.2 so go m c q hq
    rw [h]
    rfl

/-- Witness for C8 at a concrete store holding four documents. -/
theorem C8_prompt_shape_witness :
    soOk.queryFail = none ∧
    ∃ docs : List String,
      docs.length ≤ 3 ∧
      ((ask soOk goOk "tinyllama"
        ⟨[("a", "d1"), ("b", "d2"), ("c", "d3"), ("d", "d4")]⟩
        "What is phishing?").2.2.filterMap Event.promptOf) =
        ["You are a cybersecurity expert assistant. Use the following context to answer the question.\n\n                    Context:" ++
          String.intercalate "\n\n" docs ++
          "\n\n                    Question: " ++ "What is phishing?" ++
          "\n\n                    Provide a clear, actionable answer. If the context mentions MITRE ATT&CK techniques, include the technique IDs. If discussing detection, mention specific tools or data sources.\n\n        Answer:"] :=
  ⟨rfl, C8_prompt_shape soOk goOk "tinyllama"
    ⟨[("a", "d1"), ("b", "d2"), ("c", "d3"), ("d", "d4")]⟩
    "What is phishing?" rfl⟩

/-- C9 counterexample: a concrete successful request on which the handler
emits no log entry at all — its trace starts with the retrieval call and
contains no log event — so no log entry recording the inbound question
precedes retrieval, contrary to the claim. -/
theorem C9_no_question_log_counterexample :
    ((ask soOk goOk "tinyllama" ⟨[("T1566", "doc")]⟩
      "What is phishing?").2.2.filter Event.isLog) = [] ∧
    ((ask soOk goOk "tinyllama" ⟨[("T1566", "doc")]⟩
      "What is phishing?").2.2.head?) =
      some (.queryCall "What is phishing?" 3) :=
  ⟨rfl, rfl⟩

/-- C9 (amended): the handler emits no log entry before the retrieval call —
the retrieval call is always the first external action of the trace — and its
only log emission is the error log carrying the failure detail, emitted after
a failure; successful requests emit no log entry. -/
theorem C9_amended_logging (so : StoreOracle) (go : GenOracle)
    (m : String) (c : Collection) (q : String) :
    ((ask so go m c q).2.2.head?) = some (.queryCall q 3) ∧
    ((ask so go m c q).2.2.filter Event.isLog) =
      (match (ask so go m c q).1 with
        | .httpError _ d => [.logError ("Query error: " ++ d)]
        | .ok _ _ => []) := by
  cases h : c.queryDocs so q 3 with
  | error e => simp [ask, h, Event.isLog]
  | ok documents =>
    cases hg : go.generate m (askPrompt (joinContext documents) q) with
    | error e => simp [ask, h, hg, Event.isLog]
    | ok a => simp [ask, h, hg, Event.isLog]
